import Mathlib

/-!
Verification of the carbon-footprint estimation engine.

Strings are embedded as `List Char`.  Decimal literals of the source are
written as exact fractions (e.g. `6.9` as `69/10`); where values flow into
JavaScript arithmetic, the binary64 semantics is modelled explicitly: `fl`
rounds a rational to the nearest binary64 value (ties to even), `JSNum` is a
JavaScript number (a double or NaN), and `jsMulN`/`jsAddN`/`jsRound2N` are
the NaN-propagating float operations used by the aggregator.  Bracket access
`CARBON_DATA[key]` is modelled including the JavaScript prototype chain: for
a key inherited from `Object.prototype` (e.g. `"constructor"`) the access is
truthy but yields no emissions data (`LookupOutcome.inherited`).  JSON
payloads are embedded as the inductive `JValue` with JavaScript truthiness.
-/

/-- One entry of the carbon reference table (`carbonService.ts`). -/
structure EmissionsFactor where
  carbon_per_kg : ℚ
  category : List Char

/-- An ingredient as produced by the inference layer (`types.ts` LLMResponse
ingredients): name, quantity expression and category hint. -/
structure RawIngredient where
  name : List Char
  estimated_quantity : List Char
  category : List Char

/-- A JavaScript number: a binary64 value (represented by its exact rational
value) or NaN.  Infinities do not arise in this program. -/
inductive JSNum where
  | num (q : ℚ)
  | nan
deriving DecidableEq

/-- Round half to even, the IEEE 754 tie-breaking rule. -/
def rne (x : ℚ) : ℤ :=
  if x - ⌊x⌋ < 1/2 then ⌊x⌋
  else if 1/2 < x - ⌊x⌋ then ⌊x⌋ + 1
  else if Even ⌊x⌋ then ⌊x⌋ else ⌊x⌋ + 1

/-- Round a rational to the nearest binary64 value, ties to even.  The
exponent and subnormal limits of binary64 never bind for the values of this
program and are not modelled. -/
def fl (q : ℚ) : ℚ :=
  if q = 0 then 0
  else ((rne (q * 2 ^ ((52 : ℤ) - Int.log 2 |q|)) : ℤ) : ℚ) * 2 ^ (Int.log 2 |q| - (52 : ℤ))

/-- JavaScript multiplication of numbers (binary64, NaN-propagating;
`undefined * x` is also NaN). -/
def jsMulN : JSNum → JSNum → JSNum
  | JSNum.num a, JSNum.num b => JSNum.num (fl (a * b))
  | _, _ => JSNum.nan

/-- JavaScript addition of numbers (binary64, NaN-propagating). -/
def jsAddN : JSNum → JSNum → JSNum
  | JSNum.num a, JSNum.num b => JSNum.num (fl (a + b))
  | _, _ => JSNum.nan

/-- `Math.round(x * 100) / 100` on JavaScript numbers: a binary64 multiply
by 100, the exact half-up rounding of `Math.round`, and a binary64 divide by
100; NaN propagates. -/
def jsRound2N : JSNum → JSNum
  | JSNum.num x => JSNum.num (fl (((⌊fl (x * 100) + 1/2⌋ : ℤ) : ℚ) / 100))
  | JSNum.nan => JSNum.nan

/-- A resolved ingredient (`types.ts` Ingredient).  `carbon_kg` is a
JavaScript number (NaN when the lookup hit an inherited prototype member,
since `undefined * weight` is NaN), and `category` is undefined (`none`) in
that same case. -/
structure Ingredient where
  name : List Char
  carbon_kg : JSNum
  quantity : List Char
  category : Option (List Char)

/-- The whitespace class used for the `\s` regex class and `trim` (ASCII part). -/
def isSpaceChar (c : Char) : Bool :=
  c.toNat = 32 || c.toNat = 9 || c.toNat = 10 || c.toNat = 11 || c.toNat = 12 || c.toNat = 13

/-- Characters kept by the `[^a-z\s]` removal step of the name normalizer. -/
def isAllowed (c : Char) : Bool :=
  (97 ≤ c.toNat && c.toNat ≤ 122) || isSpaceChar c

/-- `String.prototype.toLowerCase` on a single character (ASCII range). -/
def toLowerChar (c : Char) : Char :=
  if 65 ≤ c.toNat && c.toNat ≤ 90 then Char.ofNat (c.toNat + 32) else c

/-- `String.prototype.toLowerCase`. -/
def toLowerStr (s : List Char) : List Char :=
  s.map toLowerChar

/-- Does the first list start with the second (`String.prototype.startsWith`)? -/
def startsWithL : List Char → List Char → Bool
  | _, [] => true
  | [], _ :: _ => false
  | a :: as, b :: bs => (a == b) && startsWithL as bs

/-- `hay.includes(needle)` of JavaScript: substring containment. -/
def containsL : List Char → List Char → Bool
  | [], needle => needle.isEmpty
  | a :: as, needle => startsWithL (a :: as) needle || containsL as needle

/-- `String.prototype.trim` (restricted to the ASCII whitespace class). -/
def trimStr (s : List Char) : List Char :=
  ((s.dropWhile isSpaceChar).reverse.dropWhile isSpaceChar).reverse

/-- The `.replace(/s$/, '')` step: strip a single trailing `s`. -/
def stripTrailingS (s : List Char) : List Char :=
  if s.getLast? = some 's' then s.dropLast else s

/-- `normalizeIngredientName` of `carbonService.ts`: lower-case, strip one
trailing `s`, remove characters outside `[a-z\s]`, trim. -/
def normalizeIngredientName (name : List Char) : List Char :=
  trimStr (List.filter isAllowed (stripTrailingS (toLowerStr name)))

/-- The static `CARBON_DATA` table of `carbonService.ts`, in declaration
order; decimal carbon intensities are written as fractions over 10. -/
def CARBON_DATA : List (List Char × EmissionsFactor) := [
  ("beef".data, ⟨600/10, "meat".data⟩),
  ("lamb".data, ⟨392/10, "meat".data⟩),
  ("pork".data, ⟨121/10, "meat".data⟩),
  ("chicken".data, ⟨69/10, "meat".data⟩),
  ("turkey".data, ⟨109/10, "meat".data⟩),
  ("fish".data, ⟨61/10, "seafood".data⟩),
  ("salmon".data, ⟨119/10, "seafood".data⟩),
  ("tuna".data, ⟨61/10, "seafood".data⟩),
  ("shrimp".data, ⟨182/10, "seafood".data⟩),
  ("eggs".data, ⟨42/10, "dairy".data⟩),
  ("cheese".data, ⟨135/10, "dairy".data⟩),
  ("milk".data, ⟨32/10, "dairy".data⟩),
  ("yogurt".data, ⟨22/10, "dairy".data⟩),
  ("butter".data, ⟨238/10, "dairy".data⟩),
  ("rice".data, ⟨27/10, "grains".data⟩),
  ("wheat".data, ⟨14/10, "grains".data⟩),
  ("bread".data, ⟨16/10, "grains".data⟩),
  ("pasta".data, ⟨14/10, "grains".data⟩),
  ("potatoes".data, ⟨5/10, "vegetables".data⟩),
  ("quinoa".data, ⟨18/10, "grains".data⟩),
  ("oats".data, ⟨16/10, "grains".data⟩),
  ("tomatoes".data, ⟨21/10, "vegetables".data⟩),
  ("onions".data, ⟨5/10, "vegetables".data⟩),
  ("carrots".data, ⟨4/10, "vegetables".data⟩),
  ("broccoli".data, ⟨40/10, "vegetables".data⟩),
  ("spinach".data, ⟨20/10, "vegetables".data⟩),
  ("lettuce".data, ⟨13/10, "vegetables".data⟩),
  ("bell peppers".data, ⟨28/10, "vegetables".data⟩),
  ("mushrooms".data, ⟨33/10, "vegetables".data⟩),
  ("beans".data, ⟨20/10, "legumes".data⟩),
  ("lentils".data, ⟨9/10, "legumes".data⟩),
  ("chickpeas".data, ⟨10/10, "legumes".data⟩),
  ("almonds".data, ⟨88/10, "nuts".data⟩),
  ("peanuts".data, ⟨32/10, "nuts".data⟩),
  ("olive oil".data, ⟨54/10, "oils".data⟩),
  ("vegetable oil".data, ⟨38/10, "oils".data⟩),
  ("coconut oil".data, ⟨64/10, "oils".data⟩),
  ("spices".data, ⟨20/10, "seasonings".data⟩),
  ("herbs".data, ⟨15/10, "seasonings".data⟩),
  ("garlic".data, ⟨6/10, "seasonings".data⟩),
  ("ginger".data, ⟨8/10, "seasonings".data⟩),
  ("sugar".data, ⟨18/10, "sweeteners".data⟩),
  ("honey".data, ⟨14/10, "sweeteners".data⟩),
  ("apples".data, ⟨4/10, "fruits".data⟩),
  ("bananas".data, ⟨7/10, "fruits".data⟩),
  ("oranges".data, ⟨4/10, "fruits".data⟩),
  ("lemons".data, ⟨5/10, "fruits".data⟩),
  ("coconut".data, ⟨17/10, "fruits".data⟩)]

/-- The `categoryKeywords` table of `inferCategory`, in declaration order. -/
def categoryKeywords : List (List Char × List (List Char)) := [
  ("meat".data, ["meat".data, "beef".data, "pork".data, "lamb".data, "chicken".data,
    "turkey".data, "duck".data, "bacon".data, "ham".data, "sausage".data]),
  ("seafood".data, ["fish".data, "salmon".data, "tuna".data, "cod".data, "shrimp".data,
    "crab".data, "lobster".data, "seafood".data, "anchovy".data]),
  ("dairy".data, ["milk".data, "cheese".data, "yogurt".data, "cream".data,
    "butter".data, "dairy".data]),
  ("vegetables".data, ["vegetable".data, "carrot".data, "broccoli".data, "spinach".data,
    "lettuce".data, "tomato".data, "onion".data, "pepper".data, "cucumber".data]),
  ("fruits".data, ["fruit".data, "apple".data, "banana".data, "orange".data,
    "berry".data, "grape".data, "mango".data, "pineapple".data]),
  ("grains".data, ["rice".data, "wheat".data, "bread".data, "pasta".data,
    "cereal".data, "oat".data, "barley".data, "quinoa".data]),
  ("legumes".data, ["bean".data, "lentil".data, "pea".data, "chickpea".data, "soy".data]),
  ("nuts".data, ["nut".data, "almond".data, "walnut".data, "peanut".data,
    "cashew".data, "pecan".data]),
  ("oils".data, ["oil".data, "fat".data, "lard".data]),
  ("seasonings".data, ["spice".data, "herb".data, "salt".data, "pepper".data,
    "garlic".data, "ginger".data, "seasoning".data])]

/-- The `categoryFallbacks` constants of `findCarbonData`. -/
def categoryFallbacks : List (List Char × ℚ) := [
  ("meat".data, 150/10),
  ("seafood".data, 80/10),
  ("dairy".data, 80/10),
  ("vegetables".data, 20/10),
  ("fruits".data, 6/10),
  ("grains".data, 15/10),
  ("legumes".data, 15/10),
  ("nuts".data, 60/10),
  ("oils".data, 45/10),
  ("seasonings".data, 18/10)]

/-- `inferCategory` of `carbonService.ts`: first category whose keyword set
has a substring match against the name, else none. -/
def inferCategory (ingredientName : List Char) : Option (List Char) :=
  (categoryKeywords.find? (fun ck => ck.2.any (fun kw => containsL ingredientName kw))).map
    (fun ck => ck.1)

/-- Property keys a plain JavaScript object inherits from
`Object.prototype`; bracket access with one of these keys (not shadowed by
an own property) returns the inherited function or object, which is truthy. -/
def OBJECT_PROTOTYPE_KEYS : List (List Char) := [
  "constructor".data, "hasOwnProperty".data, "isPrototypeOf".data,
  "propertyIsEnumerable".data, "toLocaleString".data, "toString".data,
  "valueOf".data, "__proto__".data, "__defineGetter__".data,
  "__defineSetter__".data, "__lookupGetter__".data, "__lookupSetter__".data]

/-- Outcome of the truthy `CARBON_DATA[ingredientName]` access and of the
fallback chain: either a genuine emissions factor, or a member inherited
through the prototype chain — a truthy value carrying neither
`carbon_per_kg` nor `category`. -/
inductive LookupOutcome where
  | genuine (f : EmissionsFactor)
  | inherited

/-- `findCarbonData` of `carbonService.ts`: the direct `CARBON_DATA[name]`
access (own property, or a truthy `Object.prototype` member reached through
the prototype chain), then partial (substring either way) match over the own
entries in declaration order, then category-based fallback constant on an
inferred category, then the absolute fallback
`{carbon_per_kg: 2.5, category: 'unknown'}`.  The JavaScript truthiness test
on `categoryFallbacks[inferredCategory]` is the `!= 0` guard. -/
def findCarbonData (ingredientName : List Char) : LookupOutcome :=
  match CARBON_DATA.find? (fun kv => kv.1 == ingredientName) with
  | some kv => LookupOutcome.genuine kv.2
  | none =>
    if OBJECT_PROTOTYPE_KEYS.contains ingredientName then LookupOutcome.inherited
    else
      match CARBON_DATA.find? (fun kv =>
          containsL ingredientName kv.1 || containsL kv.1 ingredientName) with
      | some kv => LookupOutcome.genuine kv.2
      | none =>
        match inferCategory ingredientName with
        | some cat =>
          match categoryFallbacks.find? (fun p => p.1 == cat) with
          | some p =>
            if p.2 != 0 then LookupOutcome.genuine ⟨p.2, cat⟩
            else LookupOutcome.genuine ⟨25/10, "unknown".data⟩
          | none => LookupOutcome.genuine ⟨25/10, "unknown".data⟩
        | none => LookupOutcome.genuine ⟨25/10, "unknown".data⟩

/-- Digit run to a natural number (decimal). -/
def digitsToNat (ds : List Char) : Nat :=
  ds.foldl (fun n c => n * 10 + (c.toNat - 48)) 0

/-- Value of the first regex match of `(\d+(?:\.\d+)?)` starting at the head
of `s` (which is assumed to start with a digit), as `parseFloat` reads it. -/
def parseDecimalAt (s : List Char) : ℚ :=
  match s.dropWhile Char.isDigit with
  | '.' :: r2 =>
    if (r2.takeWhile Char.isDigit).isEmpty then
      ((digitsToNat (s.takeWhile Char.isDigit) : ℕ) : ℚ)
    else
      ((digitsToNat (s.takeWhile Char.isDigit) : ℕ) : ℚ) +
        ((digitsToNat (r2.takeWhile Char.isDigit) : ℕ) : ℚ) /
          (10 : ℚ) ^ (r2.takeWhile Char.isDigit).length
  | _ => ((digitsToNat (s.takeWhile Char.isDigit) : ℕ) : ℚ)

/-- First decimal number found anywhere in the string
(the `match(/(\d+(?:\.\d+)?)/)` + `parseFloat` step), if any. -/
def extractNumber : List Char → Option ℚ
  | [] => none
  | c :: cs => if c.isDigit then some (parseDecimalAt (c :: cs)) else extractNumber cs

/-- The unit-keyword scan of `parseQuantityToKg`, over the lower-cased
quantity `nq` and the extracted `baseAmount`. -/
def parseQuantityAux (nq : List Char) (baseAmount : ℚ) : ℚ :=
  if containsL nq "kg".data then baseAmount
  else if containsL nq "g".data && !containsL nq "kg".data then baseAmount / 1000
  else if containsL nq "lb".data || containsL nq "pound".data then
    baseAmount * (453592/1000000)
  else if containsL nq "oz".data || containsL nq "ounce".data then
    baseAmount * (283495/10000000)
  else if containsL nq "cup".data then baseAmount * (24/100)
  else if containsL nq "tbsp".data || containsL nq "tablespoon".data then
    baseAmount * (15/1000)
  else if containsL nq "tsp".data || containsL nq "teaspoon".data then
    baseAmount * (5/1000)
  else if containsL nq "small".data then 5/100
  else if containsL nq "medium".data then 1/10
  else if containsL nq "large".data then 2/10
  else if containsL nq "piece".data || containsL nq "item".data then 1/10
  else max (5/100) (min (baseAmount * (1/10)) (5/10))

/-- `parseQuantityToKg` of `carbonService.ts`: lower-case, extract the first
number (default 0.1), then the ordered unit keyword scan; decimal multipliers
are written as exact fractions. -/
def parseQuantityToKg (quantity : List Char) : ℚ :=
  parseQuantityAux (toLowerStr quantity) ((extractNumber (toLowerStr quantity)).getD (1/10))

/-- Half-up rounding to two decimals in exact rational arithmetic: the
idealized `round2` the specification describes.  The program's own rounding
is `jsRound2N`, which applies the same half-up rule but to binary64
intermediates. -/
def round2 (x : ℚ) : ℚ :=
  ((⌊x * 100 + 1/2⌋ : ℤ) : ℚ) / 100

/-- `calculateCarbonFootprint` of `carbonService.ts`.  The stored factor and
the parsed weight are binary64 values (`fl` of their exact decimal values),
multiplied and rounded in binary64.  When the lookup returned an inherited
prototype member, `carbonData.carbon_per_kg` is undefined: the product and
its rounding are NaN and the category is undefined. -/
def calculateCarbonFootprint (ingredientNames : List RawIngredient) : List Ingredient :=
  ingredientNames.map (fun ingredient =>
    match findCarbonData (normalizeIngredientName ingredient.name) with
    | LookupOutcome.genuine f =>
      { name := ingredient.name
        carbon_kg := jsRound2N (jsMulN (JSNum.num (fl f.carbon_per_kg))
          (JSNum.num (fl (parseQuantityToKg ingredient.estimated_quantity))))
        quantity := ingredient.estimated_quantity
        category := some f.category }
    | LookupOutcome.inherited =>
      { name := ingredient.name
        carbon_kg := JSNum.nan
        quantity := ingredient.estimated_quantity
        category := none })

/-- `getTotalCarbonFootprint` of `carbonService.ts`: a binary64 sum of the
per-ingredient values followed by the `Math.round` two-decimal rounding. -/
def getTotalCarbonFootprint (ingredients : List Ingredient) : JSNum :=
  jsRound2N (ingredients.foldl (fun sum ingredient => jsAddN sum ingredient.carbon_kg)
    (JSNum.num 0))

/-- JSON-like values as produced by `JSON.parse`. -/
inductive JValue where
  | jnull
  | jbool (b : Bool)
  | jnum (q : ℚ)
  | jstr (s : List Char)
  | jarr (xs : List JValue)
  | jobj (fields : List (List Char × JValue))

/-- JavaScript truthiness of a parsed JSON value. -/
def truthy : JValue → Bool
  | JValue.jnull => false
  | JValue.jbool b => b
  | JValue.jnum q => q != 0
  | JValue.jstr s => !s.isEmpty
  | JValue.jarr _ => true
  | JValue.jobj _ => true

/-- Does `typeof v` evaluate to `'object'`? -/
def isObjectType : JValue → Bool
  | JValue.jnull => true
  | JValue.jarr _ => true
  | JValue.jobj _ => true
  | _ => false

/-- Property access `v[k]` (none models `undefined`). -/
def getField (v : JValue) (k : List Char) : Option JValue :=
  match v with
  | JValue.jobj fs => (fs.find? (fun p => p.1 == k)).map (fun p => p.2)
  | _ => none

/-- Truthiness of a property access (`undefined` is falsy). -/
def fieldTruthy (v : JValue) (k : List Char) : Bool :=
  match getField v k with
  | some f => truthy f
  | none => false

/-- The per-element check of the validation loop: `!ingredient.name ||
!ingredient.estimated_quantity || !ingredient.category` must not hold. -/
def validIngredientElem (ing : JValue) : Bool :=
  fieldTruthy ing "name".data && fieldTruthy ing "estimated_quantity".data &&
    fieldTruthy ing "category".data

/-- The ingredients-array, confidence-range and element checks shared
verbatim by `validateLLMResponse` and `validateVisionResponse`. -/
def validateTail (r : JValue) : Bool :=
  match getField r "ingredients".data with
  | some (JValue.jarr ings) =>
    match getField r "confidence".data with
    | some (JValue.jnum c) =>
      if c < 0 || 1 < c then false else ings.all validIngredientElem
    | _ => false
  | _ => false

/-- `validateLLMResponse` of `llmService.ts` as an acceptance predicate: true
iff the function returns without throwing. -/
def validateLLMResponse (r : JValue) : Bool :=
  if !(truthy r && isObjectType r) then false
  else validateTail r

/-- `validateVisionResponse` of `visionService.ts` as an acceptance
predicate; it additionally requires a truthy string-typed `dish_name`
(checked before the shared ingredient and confidence checks). -/
def validateVisionResponse (r : JValue) : Bool :=
  if !(truthy r && isObjectType r) then false
  else
    match getField r "dish_name".data with
    | some (JValue.jstr s) => if s.isEmpty then false else validateTail r
    | _ => false

/-- Shape of the text-path inference response (`types.ts` LLMResponse). -/
structure LLMResp where
  ingredients : List RawIngredient
  confidence : ℚ

/-- The pizza canned response of `getFallbackResponse`. -/
def pizzaFallback : LLMResp :=
  ⟨[⟨"wheat flour".data, "150g".data, "grains".data⟩,
    ⟨"mozzarella cheese".data, "100g".data, "dairy".data⟩,
    ⟨"tomato sauce".data, "80g".data, "vegetables".data⟩,
    ⟨"olive oil".data, "15g".data, "oils".data⟩,
    ⟨"herbs".data, "5g".data, "seasonings".data⟩], 75/100⟩

/-- The burger canned response of `getFallbackResponse`. -/
def burgerFallback : LLMResp :=
  ⟨[⟨"beef".data, "150g".data, "meat".data⟩,
    ⟨"bread".data, "80g".data, "grains".data⟩,
    ⟨"cheese".data, "30g".data, "dairy".data⟩,
    ⟨"lettuce".data, "20g".data, "vegetables".data⟩,
    ⟨"tomatoes".data, "30g".data, "vegetables".data⟩,
    ⟨"onions".data, "15g".data, "vegetables".data⟩], 80/100⟩

/-- The pasta canned response of `getFallbackResponse`. -/
def pastaFallback : LLMResp :=
  ⟨[⟨"pasta".data, "100g".data, "grains".data⟩,
    ⟨"tomato sauce".data, "120g".data, "vegetables".data⟩,
    ⟨"olive oil".data, "15g".data, "oils".data⟩,
    ⟨"garlic".data, "5g".data, "seasonings".data⟩,
    ⟨"herbs".data, "3g".data, "seasonings".data⟩], 70/100⟩

/-- The generic canned response (ultimate fallback) of `getFallbackResponse`. -/
def genericFallback : LLMResp :=
  ⟨[⟨"mixed ingredients".data, "200g".data, "unknown".data⟩,
    ⟨"cooking oil".data, "10g".data, "oils".data⟩,
    ⟨"seasonings".data, "5g".data, "seasonings".data⟩], 50/100⟩

/-- The `fallbackResponses` pattern table, in declaration order. -/
def fallbackResponses : List (List Char × LLMResp) :=
  [("pizza".data, pizzaFallback), ("burger".data, burgerFallback),
   ("pasta".data, pastaFallback)]

/-- `getFallbackResponse` of `llmService.ts`: first pattern whose keyword is
contained in the lower-cased dish name, else the generic canned response. -/
def getFallbackResponse (dishName : List Char) : LLMResp :=
  match fallbackResponses.find? (fun pr => containsL (toLowerStr dishName) pr.1) with
  | some pr => pr.2
  | none => genericFallback

/-- One element of the `/estimate/batch` result array: a success carries the
estimate fields with no error marker, a failure carries the error marker with
zero carbon, empty ingredients and zero confidence (and no methodology). -/
structure BatchItemOut where
  dish : List Char
  error : Option (List Char)
  estimated_carbon_kg : JSNum
  ingredients : List Ingredient
  confidence : ℚ
  methodology : Option (List Char)

/-- The rejected-promise formatting of `/estimate/batch`: the original
(untrimmed) dish, the error marker, zero carbon, no ingredients. -/
def failedItem (dish : List Char) : BatchItemOut :=
  ⟨dish, some "Failed to process dish".data, JSNum.num 0, [], 0, none⟩

/-- Formatting of one settled promise of `/estimate/batch`: a fulfilled
inference call yields the estimate for the trimmed dish, a rejected one the
error item for the original dish. -/
def formatOne (dish : List Char) (r : Except Unit LLMResp) : BatchItemOut :=
  match r with
  | Except.ok resp =>
    ⟨trimStr dish, none,
      getTotalCarbonFootprint (calculateCarbonFootprint resp.ingredients),
      calculateCarbonFootprint resp.ingredients, resp.confidence,
      some "LLM ingredient inference + carbon database lookup".data⟩
  | Except.error _ => failedItem dish

/-- The batch loop: the i-th dish is processed with the outcome of the i-th
inference call (`outcome` models the settled state of each per-dish call). -/
def runBatchAux (outcome : Nat → Except Unit LLMResp) : Nat → List (List Char) → List BatchItemOut
  | _, [] => []
  | i, d :: ds => formatOne d (outcome i) :: runBatchAux outcome (i + 1) ds

/-- `/estimate/batch` result formatting over the whole dish list. -/
def runBatch (outcome : Nat → Except Unit LLMResp) (dishes : List (List Char)) : List BatchItemOut :=
  runBatchAux outcome 0 dishes

/-- Spec predicate (from the amended C6 wording): the payload has an
ingredients array, a confidence number in [0,1], and every element carries
truthy `name`, `estimated_quantity` and `category` fields. -/
def tailAccepts (r : JValue) : Prop :=
  ∃ ings c, getField r "ingredients".data = some (JValue.jarr ings) ∧
    getField r "confidence".data = some (JValue.jnum c) ∧ 0 ≤ c ∧ c ≤ 1 ∧
    ∀ ing ∈ ings, validIngredientElem ing = true

/-- Spec predicate (from the amended C6 wording): acceptance of the text-path
validator characterized by truthiness of the three element fields. -/
def llmAccepts (r : JValue) : Prop :=
  truthy r = true ∧ isObjectType r = true ∧ tailAccepts r

/-- Spec predicate (from the amended C6 wording): acceptance of the vision
validator; `dish_name` really must be a non-empty string there. -/
def visionAccepts (r : JValue) : Prop :=
  truthy r = true ∧ isObjectType r = true ∧
    (∃ s, getField r "dish_name".data = some (JValue.jstr s) ∧ s ≠ []) ∧
    tailAccepts r

/-- Spec predicate: an optional JSON value is a non-empty string. -/
def isNonEmptyStringProp (v : Option JValue) : Prop :=
  ∃ s, v = some (JValue.jstr s) ∧ s ≠ []

/-- An ingredient element whose `name` field is the number 5 (truthy but not
a string). -/
def c6Elem : JValue :=
  JValue.jobj [("name".data, JValue.jnum 5),
    ("estimated_quantity".data, JValue.jstr "100g".data),
    ("category".data, JValue.jstr "meat".data)]

/-- Counterexample payload for C6: the single element carries a number, not a
string, in its `name` field, yet every field is truthy. -/
def c6Payload : JValue :=
  JValue.jobj [
    ("ingredients".data, JValue.jarr [c6Elem]),
    ("confidence".data, JValue.jnum 1)]

/-- Keyword signals checked before the qualitative size words in
`parseQuantityToKg` (the mass/volume unit substrings). -/
def hasEarlyUnit (nq : List Char) : Bool :=
  containsL nq "kg".data || containsL nq "g".data || containsL nq "lb".data ||
    containsL nq "pound".data || containsL nq "oz".data || containsL nq "ounce".data ||
    containsL nq "cup".data || containsL nq "tbsp".data || containsL nq "tablespoon".data ||
    containsL nq "tsp".data || containsL nq "teaspoon".data

/-- All keyword signals of `parseQuantityToKg` (units, size words, piece/item). -/
def hasAnyKeyword (nq : List Char) : Bool :=
  hasEarlyUnit nq || containsL nq "small".data || containsL nq "medium".data ||
    containsL nq "large".data || containsL nq "piece".data || containsL nq "item".data

/-- Outcome function for the C9 witness: every inference call fails. -/
def outcomeFailAll : Nat → Except Unit LLMResp :=
  fun _ => Except.error ()

/-- Outcome function for the C9 witness: call 0 succeeds, the rest fail. -/
def outcomeOkZero : Nat → Except Unit LLMResp :=
  fun i => if i = 0 then Except.ok ⟨[], 1⟩ else Except.error ()

/-! ## Helper lemmas -/

theorem startsWithL_iff (m : List Char) : ∀ l, startsWithL l m = true ↔ ∃ t, l = m ++ t := by
  induction m with
  | nil => intro l; simp [startsWithL]
  | cons b bs ih =>
    intro l
    cases l with
    | nil => simp [startsWithL]
    | cons a as =>
      simp only [startsWithL, Bool.and_eq_true, beq_iff_eq, ih, List.cons_append,
        List.cons.injEq]
      constructor
      · rintro ⟨rfl, t, rfl⟩; exact ⟨t, rfl, rfl⟩
      · rintro ⟨t, rfl, rfl⟩; exact ⟨rfl, t, rfl⟩

theorem containsL_iff (m : List Char) : ∀ l, containsL l m = true ↔ ∃ u v, l = u ++ m ++ v := by
  intro l
  induction l with
  | nil =>
    simp only [containsL, List.isEmpty_iff]
    constructor
    · rintro rfl; exact ⟨[], [], rfl⟩
    · rintro ⟨u, v, h⟩
      rcases List.append_eq_nil.mp h.symm with ⟨h1, h2⟩
      exact (List.append_eq_nil.mp h1).2
  | cons a as ih =>
    simp only [containsL, Bool.or_eq_true, startsWithL_iff, ih]
    constructor
    · rintro (⟨t, ht⟩ | ⟨u, v, hv⟩)
      · exact ⟨[], t, by simpa using ht⟩
      · exact ⟨a :: u, v, by simp [hv]⟩
    · rintro ⟨u, v, h⟩
      cases u with
      | nil => exact Or.inl ⟨v, by simpa using h⟩
      | cons c cs =>
        simp only [List.cons_append, List.cons.injEq] at h
        exact Or.inr ⟨cs, v, h.2⟩

theorem containsL_trans {a b c : List Char} (h1 : containsL a b = true)
    (h2 : containsL b c = true) : containsL a c = true := by
  rcases (containsL_iff b a).mp h1 with ⟨u, v, rfl⟩
  rcases (containsL_iff c b).mp h2 with ⟨x, y, rfl⟩
  exact (containsL_iff c _).mpr ⟨u ++ x, y ++ v, by simp⟩

theorem large_implies_g (nq : List Char) (h : containsL nq "large".data = true) :
    containsL nq "g".data = true :=
  containsL_trans h (by decide)

theorem dropWhile_eq_self_of_head (p : Char → Bool) (l : List Char)
    (h : ∀ c t, l = c :: t → p c = false) : l.dropWhile p = l := by
  cases l with
  | nil => rfl
  | cons c t => exact List.dropWhile_cons_of_neg (by simp [h c t rfl])

theorem dropWhile_idem (p : Char → Bool) (l : List Char) :
    (l.dropWhile p).dropWhile p = l.dropWhile p := by
  induction l with
  | nil => rfl
  | cons c t ih =>
    by_cases h : p c
    · simp [List.dropWhile_cons_of_pos h, ih]
    · simp [List.dropWhile_cons_of_neg h]

theorem dropWhile_suffix (p : Char → Bool) (l : List Char) :
    ∃ u, l = u ++ l.dropWhile p := by
  induction l with
  | nil => exact ⟨[], rfl⟩
  | cons c t ih =>
    by_cases h : p c
    · rcases ih with ⟨u, hu⟩
      exact ⟨c :: u, by simp [List.dropWhile_cons_of_pos h, ← hu]⟩
    · exact ⟨[], by simp [List.dropWhile_cons_of_neg h]⟩

theorem dropWhile_head_false (p : Char → Bool) (l : List Char) (c : Char) (t : List Char)
    (h : l.dropWhile p = c :: t) : p c = false := by
  have := List.head?_dropWhile_not p l
  rw [h] at this
  simpa using this

theorem trimStr_idem (s : List Char) : trimStr (trimStr s) = trimStr s := by
  unfold trimStr
  set a := s.dropWhile isSpaceChar with ha
  set b := a.reverse.dropWhile isSpaceChar with hb
  have hstep1 : b.reverse.dropWhile isSpaceChar = b.reverse := by
    apply dropWhile_eq_self_of_head
    intro c t h
    rcases dropWhile_suffix isSpaceChar a.reverse with ⟨u, hu⟩
    rw [← hb] at hu
    have hba : a = b.reverse ++ u.reverse := by
      have := congrArg List.reverse hu
      simpa using this
    rw [h] at hba
    have ha' : a.dropWhile isSpaceChar = a := by rw [ha]; exact dropWhile_idem _ _
    apply dropWhile_head_false isSpaceChar a c (t ++ u.reverse)
    rw [ha']
    simpa using hba
  rw [hstep1]
  have hstep2 : b.reverse.reverse.dropWhile isSpaceChar = b := by
    rw [List.reverse_reverse, hb]
    exact dropWhile_idem _ _
  rw [hstep2]

theorem mem_trimStr (s : List Char) (c : Char) (h : c ∈ trimStr s) : c ∈ s := by
  unfold trimStr at h
  rw [List.mem_reverse] at h
  rcases dropWhile_suffix isSpaceChar (s.dropWhile isSpaceChar).reverse with ⟨u, hu⟩
  have h1 : c ∈ (s.dropWhile isSpaceChar).reverse := by
    rw [hu]; exact List.mem_append_right u h
  rw [List.mem_reverse] at h1
  rcases dropWhile_suffix isSpaceChar s with ⟨w, hw⟩
  rw [hw]
  exact List.mem_append_right w h1

theorem toLowerChar_of_allowed (c : Char) (h : isAllowed c = true) : toLowerChar c = c := by
  unfold isAllowed isSpaceChar at h
  unfold toLowerChar
  rw [if_neg]
  simp only [Bool.or_eq_true, Bool.and_eq_true, decide_eq_true_eq] at h ⊢
  omega

theorem carbonDataFacts : ∀ kv ∈ CARBON_DATA, 0 < kv.2.carbon_per_kg ∧ kv.2.category ≠ [] := by
  intro kv h
  fin_cases h <;> exact ⟨by norm_num, by decide⟩

theorem categoryKeywordsFacts : ∀ ck ∈ categoryKeywords, ck.1 ≠ [] := by decide

theorem categoryFallbacksFacts : ∀ p ∈ categoryFallbacks, 0 < p.2 := by
  intro p h
  fin_cases h <;> norm_num

theorem parseDecimalAt_nonneg (s : List Char) : 0 ≤ parseDecimalAt s := by
  unfold parseDecimalAt
  split
  · split
    · positivity
    · positivity
  · positivity

theorem extractNumber_nonneg : ∀ (s : List Char) (x : ℚ), extractNumber s = some x → 0 ≤ x := by
  intro s
  induction s with
  | nil => intro x h; simp [extractNumber] at h
  | cons c cs ih =>
    intro x h
    unfold extractNumber at h
    by_cases hd : c.isDigit
    · rw [if_pos hd] at h
      obtain rfl : parseDecimalAt (c :: cs) = x := by injection h
      exact parseDecimalAt_nonneg _
    · rw [if_neg hd] at h
      exact ih x h

theorem baseAmount_nonneg (nq : List Char) : 0 ≤ (extractNumber nq).getD (1/10) := by
  rcases h : extractNumber nq with _ | x
  · norm_num
  · simpa using extractNumber_nonneg nq x h

theorem round2_eval (q : ℚ) (n : ℤ) (h1 : (n : ℚ) ≤ q * 100 + 1/2)
    (h2 : q * 100 + 1/2 < n + 1) : round2 q = (n : ℚ) / 100 := by
  unfold round2
  rw [Int.floor_eq_iff.mpr ⟨h1, h2⟩]

theorem log2_eq_of (q : ℚ) (e : ℤ) (h0 : 0 < q) (h1 : (2:ℚ)^e ≤ q) (h2 : q < (2:ℚ)^(e+1)) :
    Int.log 2 q = e := by
  have hb2 : (1 : ℕ) < 2 := by norm_num
  have hcast : ((2:ℕ):ℚ) = (2:ℚ) := by norm_num
  have ha : Int.log 2 q ≤ e := by
    by_contra hc
    push_neg at hc
    have hm : (2:ℚ)^(e+1) ≤ (2:ℚ)^(Int.log 2 q) :=
      zpow_le_zpow_right₀ (by norm_num) (by omega)
    have h3 : ((2:ℕ):ℚ)^(Int.log 2 q) ≤ q := Int.zpow_log_le_self hb2 h0
    rw [hcast] at h3
    linarith
  have hb : e ≤ Int.log 2 q := by
    have h4 : Int.log 2 ((2:ℚ)^e) = e := by
      rw [← hcast]; exact Int.log_zpow hb2 e
    calc e = Int.log 2 ((2:ℚ)^e) := h4.symm
    _ ≤ Int.log 2 q := Int.log_mono_right (by positivity) h1
  omega

theorem rne_eval_lt (x : ℚ) (f : ℤ) (ha : (f:ℚ) ≤ x) (hb : x < (f:ℚ) + 1/2) : rne x = f := by
  have hf : ⌊x⌋ = f := Int.floor_eq_iff.mpr ⟨ha, by linarith⟩
  unfold rne
  rw [hf, if_pos (by linarith)]

theorem rne_eval_gt (x : ℚ) (f : ℤ) (ha : (f:ℚ) + 1/2 < x) (hb : x < (f:ℚ) + 1) :
    rne x = f + 1 := by
  have hf : ⌊x⌋ = f := Int.floor_eq_iff.mpr ⟨by linarith, hb⟩
  unfold rne
  rw [hf, if_neg (by linarith), if_pos (by linarith)]

theorem rne_eval_tie_even (x : ℚ) (f : ℤ) (hx : x = (f:ℚ) + 1/2) (he : Even f) : rne x = f := by
  have hf : ⌊x⌋ = f := Int.floor_eq_iff.mpr ⟨by rw [hx]; linarith, by rw [hx]; linarith⟩
  unfold rne
  rw [hf, if_neg (by rw [hx]; linarith), if_neg (by rw [hx]; linarith), if_pos he]

theorem fl_eval_div (q v : ℚ) (e : ℤ) (s : ℕ) (n : ℤ)
    (h0 : 0 < q) (hs : (s : ℤ) = 52 - e)
    (h1 : (2:ℚ)^e ≤ q) (h2 : q < (2:ℚ)^(e+1))
    (hr : rne (q * 2^s) = n)
    (hv : ((n : ℤ) : ℚ) / 2^s = v) :
    fl q = v := by
  unfold fl
  rw [if_neg (ne_of_gt h0), abs_of_pos h0, log2_eq_of q e h0 h1 h2]
  rw [show (52 : ℤ) - e = (s:ℤ) from by omega]
  rw [zpow_natCast]
  rw [hr]
  rw [show e - (52:ℤ) = -(s:ℤ) from by omega]
  rw [zpow_neg, zpow_natCast]
  rw [← div_eq_mul_inv]
  exact hv

theorem jsMulN_eval (a b c : ℚ) (h : fl (a * b) = c) :
    jsMulN (JSNum.num a) (JSNum.num b) = JSNum.num c := by
  show JSNum.num (fl (a * b)) = JSNum.num c
  rw [h]

theorem jsAddN_eval (a b c : ℚ) (h : fl (a + b) = c) :
    jsAddN (JSNum.num a) (JSNum.num b) = JSNum.num c := by
  show JSNum.num (fl (a + b)) = JSNum.num c
  rw [h]

theorem jsRound2N_eval (x y z d : ℚ) (r : ℤ)
    (h1 : fl (x * 100) = y) (h2 : ⌊y + 1/2⌋ = r) (h3 : ((r : ℤ) : ℚ) = z)
    (h4 : fl (z / 100) = d) :
    jsRound2N (JSNum.num x) = JSNum.num d := by
  show JSNum.num (fl (((⌊fl (x * 100) + 1/2⌋ : ℤ) : ℚ) / 100)) = JSNum.num d
  rw [h1, h2, h3, h4]

theorem calcCF_cons_genuine (ing : RawIngredient) (rest : List RawIngredient)
    (f : EmissionsFactor)
    (h : findCarbonData (normalizeIngredientName ing.name) = LookupOutcome.genuine f) :
    calculateCarbonFootprint (ing :: rest) =
      { name := ing.name
        carbon_kg := jsRound2N (jsMulN (JSNum.num (fl f.carbon_per_kg))
          (JSNum.num (fl (parseQuantityToKg ing.estimated_quantity))))
        quantity := ing.estimated_quantity
        category := some f.category } :: calculateCarbonFootprint rest := by
  unfold calculateCarbonFootprint
  simp only [List.map_cons, h]

theorem fl_d01 : fl (1/10) = 7205759403792794/2^56 :=
  fl_eval_div _ _ (-4) 56 7205759403792794 (by norm_num) (by norm_num) (by norm_num)
    (by norm_num)
    (by rw [rne_eval_gt ((1/10 : ℚ) * 2^56) 7205759403792793 (by norm_num) (by norm_num)]; norm_num)
    (by norm_num)

theorem fl_d015 : fl (15/100) = 5404319552844595/2^55 :=
  fl_eval_div _ _ (-3) 55 5404319552844595 (by norm_num) (by norm_num) (by norm_num)
    (by norm_num)
    (rne_eval_lt ((15/100 : ℚ) * 2^55) 5404319552844595 (by norm_num) (by norm_num))
    (by norm_num)

theorem fl_d02 : fl (2/10) = 7205759403792794/2^55 :=
  fl_eval_div _ _ (-3) 55 7205759403792794 (by norm_num) (by norm_num) (by norm_num)
    (by norm_num)
    (by rw [rne_eval_gt ((2/10 : ℚ) * 2^55) 7205759403792793 (by norm_num) (by norm_num)]; norm_num)
    (by norm_num)

theorem fl_d69 : fl (69/10) = 7768709357214106/2^50 :=
  fl_eval_div _ _ 2 50 7768709357214106 (by norm_num) (by norm_num) (by norm_num)
    (by norm_num)
    (by rw [rne_eval_gt ((69/10 : ℚ) * 2^50) 7768709357214105 (by norm_num) (by norm_num)]; norm_num)
    (by norm_num)

theorem fl_d27 : fl (27/10) = 6079859496950170/2^51 :=
  fl_eval_div _ _ 1 51 6079859496950170 (by norm_num) (by norm_num) (by norm_num)
    (by norm_num)
    (by rw [rne_eval_gt ((27/10 : ℚ) * 2^51) 6079859496950169 (by norm_num) (by norm_num)]; norm_num)
    (by norm_num)

theorem fl_d25 : fl (25/10) = 5/2 :=
  fl_eval_div _ _ 1 51 5629499534213120 (by norm_num) (by norm_num) (by norm_num)
    (by norm_num)
    (rne_eval_lt ((25/10 : ℚ) * 2^51) 5629499534213120 (by norm_num) (by norm_num))
    (by norm_num)

theorem fl_m1 : fl ((5/2 : ℚ) * (7205759403792794/2^56)) = 1/4 :=
  fl_eval_div _ _ (-2) 54 4503599627370496 (by norm_num) (by norm_num) (by norm_num)
    (by norm_num)
    (rne_eval_lt _ 4503599627370496 (by norm_num) (by norm_num))
    (by norm_num)

theorem fl_f25 : fl ((1/4 : ℚ) * 100) = 25 :=
  fl_eval_div _ _ 4 48 7036874417766400 (by norm_num) (by norm_num) (by norm_num)
    (by norm_num)
    (rne_eval_lt _ 7036874417766400 (by norm_num) (by norm_num))
    (by norm_num)

theorem floor_25 : ⌊(25 : ℚ) + 1/2⌋ = 25 :=
  Int.floor_eq_iff.mpr (by norm_num)

theorem fl_d14 : fl ((25 : ℚ) / 100) = 1/4 :=
  fl_eval_div _ _ (-2) 54 4503599627370496 (by norm_num) (by norm_num) (by norm_num)
    (by norm_num)
    (rne_eval_lt _ 4503599627370496 (by norm_num) (by norm_num))
    (by norm_num)

theorem fl_p1 : fl ((7768709357214106/2^50 : ℚ) * (5404319552844595/2^55)) =
    4661225614328463/2^52 :=
  fl_eval_div _ _ 0 52 4661225614328463 (by norm_num) (by norm_num) (by norm_num)
    (by norm_num)
    (rne_eval_lt _ 4661225614328463 (by norm_num) (by norm_num))
    (by norm_num)

theorem fl_q1 : fl ((4661225614328463/2^52 : ℚ) * 100) = 7283165022388223/2^46 :=
  fl_eval_div _ _ 6 46 7283165022388223 (by norm_num) (by norm_num) (by norm_num)
    (by norm_num)
    (rne_eval_lt _ 7283165022388223 (by norm_num) (by norm_num))
    (by norm_num)

theorem floor_q1 : ⌊(7283165022388223/2^46 : ℚ) + 1/2⌋ = 103 :=
  Int.floor_eq_iff.mpr (by norm_num)

theorem fl_d103 : fl ((103 : ℚ) / 100) = 4638707616191611/2^52 :=
  fl_eval_div _ _ 0 52 4638707616191611 (by norm_num) (by norm_num) (by norm_num)
    (by norm_num)
    (by rw [rne_eval_gt ((103 : ℚ)/100 * 2^52) 4638707616191610 (by norm_num) (by norm_num)]; norm_num)
    (by norm_num)

theorem fl_p2 : fl ((6079859496950170/2^51 : ℚ) * (7205759403792794/2^55)) =
    4863887597560136/2^53 :=
  fl_eval_div _ _ (-1) 53 4863887597560136 (by norm_num) (by norm_num) (by norm_num)
    (by norm_num)
    (rne_eval_lt _ 4863887597560136 (by norm_num) (by norm_num))
    (by norm_num)

theorem fl_q2 : fl ((4863887597560136/2^53 : ℚ) * 100) = 54 :=
  fl_eval_div _ _ 5 47 7599824371187712 (by norm_num) (by norm_num) (by norm_num)
    (by norm_num)
    (rne_eval_tie_even _ 7599824371187712 (by norm_num) (by decide))
    (by norm_num)

theorem floor_54 : ⌊(54 : ℚ) + 1/2⌋ = 54 :=
  Int.floor_eq_iff.mpr (by norm_num)

theorem fl_d054 : fl ((54 : ℚ) / 100) = 4863887597560136/2^53 :=
  fl_eval_div _ _ (-1) 53 4863887597560136 (by norm_num) (by norm_num) (by norm_num)
    (by norm_num)
    (by rw [rne_eval_gt ((54 : ℚ)/100 * 2^53) 4863887597560135 (by norm_num) (by norm_num)]; norm_num)
    (by norm_num)

theorem fl_fix103 : fl ((4638707616191611/2^52 : ℚ)) = 4638707616191611/2^52 :=
  fl_eval_div _ _ 0 52 4638707616191611 (by norm_num) (by norm_num) (by norm_num)
    (by norm_num)
    (rne_eval_lt _ 4638707616191611 (by norm_num) (by norm_num))
    (by norm_num)

theorem fl_sT : fl ((4638707616191611/2^52 : ℚ) + 4863887597560136/2^53) =
    7070651414971679/2^52 :=
  fl_eval_div _ _ 0 52 7070651414971679 (by norm_num) (by norm_num) (by norm_num)
    (by norm_num)
    (rne_eval_lt _ 7070651414971679 (by norm_num) (by norm_num))
    (by norm_num)

theorem fl_qT : fl ((7070651414971679/2^52 : ℚ) * 100) = 157 :=
  fl_eval_div _ _ 7 45 5523946417946624 (by norm_num) (by norm_num) (by norm_num)
    (by norm_num)
    (rne_eval_lt _ 5523946417946624 (by norm_num) (by norm_num))
    (by norm_num)

theorem floor_157 : ⌊(157 : ℚ) + 1/2⌋ = 157 :=
  Int.floor_eq_iff.mpr (by norm_num)

theorem fl_d157 : fl ((157 : ℚ) / 100) = 7070651414971679/2^52 :=
  fl_eval_div _ _ 0 52 7070651414971679 (by norm_num) (by norm_num) (by norm_num)
    (by norm_num)
    (by rw [rne_eval_gt ((157 : ℚ)/100 * 2^52) 7070651414971678 (by norm_num) (by norm_num)]; norm_num)
    (by norm_num)

theorem runBatchAux_length (f : Nat → Except Unit LLMResp) :
    ∀ (ds : List (List Char)) (n : Nat), (runBatchAux f n ds).length = ds.length := by
  intro ds
  induction ds with
  | nil => intro n; rfl
  | cons d ds ih => intro n; simp [runBatchAux, ih]

theorem runBatchAux_getElem? (f : Nat → Except Unit LLMResp) :
    ∀ (ds : List (List Char)) (n i : Nat),
      (runBatchAux f n ds)[i]? = (ds[i]?).map (fun d => formatOne d (f (n + i))) := by
  intro ds
  induction ds with
  | nil => intro n i; simp [runBatchAux]
  | cons d ds ih =>
    intro n i
    cases i with
    | zero => simp [runBatchAux]
    | succ j =>
      have harg : n + 1 + j = n + (j + 1) := by omega
      simp only [runBatchAux, List.getElem?_cons_succ, ih (n + 1) j, harg]
theorem parse200g : parseQuantityToKg "200g".data = 2/10 := by
  unfold parseQuantityToKg parseQuantityAux
  rw [if_neg (by decide), if_pos (by decide)]
  rw [show extractNumber (toLowerStr "200g".data) = some ((200 : ℕ) : ℚ) from by decide]
  norm_num

theorem parse1kg : parseQuantityToKg "1 kg".data = 1 := by
  unfold parseQuantityToKg parseQuantityAux
  rw [if_pos (by decide)]
  rw [show extractNumber (toLowerStr "1 kg".data) = some ((1 : ℕ) : ℚ) from by decide]
  norm_num

theorem parse2lb : parseQuantityToKg "2 lb".data = 907184/1000000 := by
  unfold parseQuantityToKg parseQuantityAux
  rw [if_neg (by decide), if_neg (by decide), if_pos (by decide)]
  rw [show extractNumber (toLowerStr "2 lb".data) = some ((2 : ℕ) : ℚ) from by decide]
  norm_num

theorem parseMedium : parseQuantityToKg "medium".data = 1/10 := by
  unfold parseQuantityToKg parseQuantityAux
  rw [if_neg (by decide), if_neg (by decide), if_neg (by decide), if_neg (by decide),
    if_neg (by decide), if_neg (by decide), if_neg (by decide), if_neg (by decide),
    if_pos (by decide)]

theorem parseLarge : parseQuantityToKg "large".data = 1/10000 := by
  unfold parseQuantityToKg parseQuantityAux
  rw [if_neg (by decide), if_pos (by decide)]
  rw [show extractNumber (toLowerStr "large".data) = none from rfl]
  norm_num [Option.getD]

theorem parseEmpty : parseQuantityToKg "".data = 5/100 := by
  unfold parseQuantityToKg parseQuantityAux
  rw [if_neg (by decide), if_neg (by decide), if_neg (by decide), if_neg (by decide),
    if_neg (by decide), if_neg (by decide), if_neg (by decide), if_neg (by decide),
    if_neg (by decide), if_neg (by decide), if_neg (by decide)]
  rw [show extractNumber (toLowerStr "".data) = none from rfl]
  norm_num [Option.getD, min_def, max_def]

theorem parse0g : parseQuantityToKg "0g".data = 0 := by
  unfold parseQuantityToKg parseQuantityAux
  rw [if_neg (by decide), if_pos (by decide)]
  rw [show extractNumber (toLowerStr "0g".data) = some ((0 : ℕ) : ℚ) from by decide]
  norm_num

theorem parse0kg : parseQuantityToKg "0 kg".data = 0 := by
  unfold parseQuantityToKg parseQuantityAux
  rw [if_pos (by decide)]
  rw [show extractNumber (toLowerStr "0 kg".data) = some ((0 : ℕ) : ℚ) from by decide]
  norm_num

theorem parse100g : parseQuantityToKg "100g".data = 1/10 := by
  unfold parseQuantityToKg parseQuantityAux
  rw [if_neg (by decide), if_pos (by decide)]
  rw [show extractNumber (toLowerStr "100g".data) = some ((100 : ℕ) : ℚ) from by decide]
  norm_num

theorem parse150g : parseQuantityToKg "150g".data = 15/100 := by
  unfold parseQuantityToKg parseQuantityAux
  rw [if_neg (by decide), if_pos (by decide)]
  rw [show extractNumber (toLowerStr "150g".data) = some ((150 : ℕ) : ℚ) from by decide]
  norm_num
theorem validateTail_iff (r : JValue) : validateTail r = true ↔ tailAccepts r := by
  unfold validateTail tailAccepts
  rcases hi : getField r "ingredients".data with _ | v
  · simp only [hi]
    constructor
    · intro h; cases h
    · rintro ⟨ings, c, hIng, _⟩; simp [hi] at hIng
  · cases v with
    | jarr ings =>
      simp only [hi]
      rcases hc : getField r "confidence".data with _ | w
      · simp only [hc]
        constructor
        · intro h; cases h
        · rintro ⟨ings2, c, hIng, hConf, _⟩; cases hConf
      · cases w with
        | jnum c =>
          simp only [hc]
          by_cases hb : c < 0 ∨ 1 < c
          · rw [if_pos (by simpa using hb)]
            constructor
            · intro h; cases h
            · rintro ⟨ings2, c2, hIng, hConf, h0, h1, _⟩
              obtain rfl : ings = ings2 := by simpa using hIng
              obtain rfl : c = c2 := by simpa using hConf
              rcases hb with hb | hb
              · exact absurd h0 (not_le.mpr hb)
              · exact absurd h1 (not_le.mpr hb)
          · rw [if_neg (by simpa using hb)]
            push_neg at hb
            constructor
            · intro h
              exact ⟨ings, c, rfl, rfl, hb.1, hb.2, List.all_eq_true.mp h⟩
            · rintro ⟨ings2, c2, hIng, hConf, h0, h1, hall⟩
              obtain rfl : ings = ings2 := by simpa using hIng
              exact List.all_eq_true.mpr hall
        | jnull =>
          simp only [hc]
          constructor
          · intro h; cases h
          · rintro ⟨ings2, c, hIng, hConf, _⟩
            simp at hConf
        | jbool b =>
          simp only [hc]
          constructor
          · intro h; cases h
          · rintro ⟨ings2, c, hIng, hConf, _⟩
            simp at hConf
        | jstr s =>
          simp only [hc]
          constructor
          · intro h; cases h
          · rintro ⟨ings2, c, hIng, hConf, _⟩
            simp at hConf
        | jarr xs =>
          simp only [hc]
          constructor
          · intro h; cases h
          · rintro ⟨ings2, c, hIng, hConf, _⟩
            simp at hConf
        | jobj fs =>
          simp only [hc]
          constructor
          · intro h; cases h
          · rintro ⟨ings2, c, hIng, hConf, _⟩
            simp at hConf
    | jnull =>
      simp only [hi]
      constructor
      · intro h; cases h
      · rintro ⟨ings, c, hIng, _⟩; simp at hIng
    | jbool b =>
      simp only [hi]
      constructor
      · intro h; cases h
      · rintro ⟨ings, c, hIng, _⟩; simp at hIng
    | jnum q =>
      simp only [hi]
      constructor
      · intro h; cases h
      · rintro ⟨ings, c, hIng, _⟩; simp at hIng
    | jstr s =>
      simp only [hi]
      constructor
      · intro h; cases h
      · rintro ⟨ings, c, hIng, _⟩; simp at hIng
    | jobj fs =>
      simp only [hi]
      constructor
      · intro h; cases h
      · rintro ⟨ings, c, hIng, _⟩; simp at hIng

theorem parseQuantityAux_nonneg (nq : List Char) (b : ℚ) (hb : 0 ≤ b) :
    0 ≤ parseQuantityAux nq b := by
  unfold parseQuantityAux
  by_cases h1 : containsL nq "kg".data = true
  · rw [if_pos h1]; exact hb
  rw [if_neg h1]
  by_cases h2 : (containsL nq "g".data && !containsL nq "kg".data) = true
  · rw [if_pos h2]; positivity
  rw [if_neg h2]
  by_cases h3 : (containsL nq "lb".data || containsL nq "pound".data) = true
  · rw [if_pos h3]; positivity
  rw [if_neg h3]
  by_cases h4 : (containsL nq "oz".data || containsL nq "ounce".data) = true
  · rw [if_pos h4]; positivity
  rw [if_neg h4]
  by_cases h5 : containsL nq "cup".data = true
  · rw [if_pos h5]; positivity
  rw [if_neg h5]
  by_cases h6 : (containsL nq "tbsp".data || containsL nq "tablespoon".data) = true
  · rw [if_pos h6]; positivity
  rw [if_neg h6]
  by_cases h7 : (containsL nq "tsp".data || containsL nq "teaspoon".data) = true
  · rw [if_pos h7]; positivity
  rw [if_neg h7]
  by_cases h8 : containsL nq "small".data = true
  · rw [if_pos h8]; norm_num
  rw [if_neg h8]
  by_cases h9 : containsL nq "medium".data = true
  · rw [if_pos h9]; norm_num
  rw [if_neg h9]
  by_cases h10 : containsL nq "large".data = true
  · rw [if_pos h10]; norm_num
  rw [if_neg h10]
  by_cases h11 : (containsL nq "piece".data || containsL nq "item".data) = true
  · rw [if_pos h11]; norm_num
  rw [if_neg h11]
  exact le_trans (by norm_num) (le_max_left _ _)

/-! ## Claims -/

/-- C1 counterexample: for ingredient name "xyzfoo123" with category hint
"meat", the resolved category is "unknown" (the absolute fallback), not
"meat" as the claim requires: the hint never reaches the resolution chain. -/
theorem c1_counterexample :
    (calculateCarbonFootprint [⟨"xyzfoo123".data, "100g".data, "meat".data⟩]).map
        (fun i => i.category) = [some "unknown".data] ∧
    ¬ (calculateCarbonFootprint [⟨"xyzfoo123".data, "100g".data, "meat".data⟩]).map
        (fun i => i.category) = [some "meat".data] := by
  constructor
  · rfl
  · intro h
    have h2 : ([some "unknown".data] : List (Option (List Char))) = [some "meat".data] := by
      rw [← h]; rfl
    simp at h2

/-- C1 (amended): `findCarbonData` receives only the normalized name, so the
category hint is ignored entirely; for "xyzfoo123" (whatever the hint, even
"meat") the chain falls through to the absolute fallback
{carbon_per_kg: 2.5, category: "unknown"}, and the ingredient resolves to
carbon 0.25 for a 100g quantity (2.5 × 0.1 is exact in binary64). -/
theorem c1_amended : ∀ hint : List Char,
    calculateCarbonFootprint [⟨"xyzfoo123".data, "100g".data, hint⟩] =
      [⟨"xyzfoo123".data, JSNum.num (25/100), "100g".data, some "unknown".data⟩] ∧
    findCarbonData (normalizeIngredientName "xyzfoo123".data) =
      LookupOutcome.genuine ⟨25/10, "unknown".data⟩ := by
  intro hint
  refine ⟨?_, rfl⟩
  rw [calcCF_cons_genuine ⟨"xyzfoo123".data, "100g".data, hint⟩ [] ⟨25/10, "unknown".data⟩ rfl]
  rw [show (⟨25/10, "unknown".data⟩ : EmissionsFactor).carbon_per_kg = 25/10 from rfl]
  rw [parse100g, fl_d25, fl_d01]
  rw [jsMulN_eval (5/2) (7205759403792794/2^56) (1/4) fl_m1]
  rw [jsRound2N_eval (1/4) 25 25 (1/4) 25 fl_f25 floor_25 (by norm_num) fl_d14]
  rw [show (1/4 : ℚ) = 25/100 from by norm_num]
  rfl

/-- C2 counterexample: the claim fails on the source because the direct
`CARBON_DATA[name]` access consults the prototype chain: for name
"constructor" (reachable, since the raw name "Constructors" normalizes to
it) the access yields the truthy inherited `Object` constructor, which the
chain returns — with undefined carbon_per_kg and category, so the resolved
ingredient carries NaN carbon and an undefined category instead of a
positive factor and a non-empty category. -/
theorem c2_counterexample :
    findCarbonData "constructor".data = LookupOutcome.inherited ∧
    normalizeIngredientName "Constructors".data = "constructor".data ∧
    (calculateCarbonFootprint [⟨"Constructors".data, "100g".data, "meat".data⟩]).map
        (fun i => (i.carbon_kg, i.category)) = [(JSNum.nan, none)] :=
  ⟨rfl, by decide, rfl⟩

/-- C2 (amended): every genuine outcome of the resolution chain (a table
entry, a per-category fallback constant, or the absolute fallback) has
strictly positive carbon_per_kg and a non-empty category, and the chain
produces a genuine outcome for every name that is not one of the
`Object.prototype` property keys; only those inherited keys (e.g.
"constructor") escape the chain with no emissions data. -/
theorem c2_amended :
    (∀ (name : List Char) (f : EmissionsFactor),
      findCarbonData name = LookupOutcome.genuine f →
      0 < f.carbon_per_kg ∧ f.category ≠ []) ∧
    (∀ name : List Char, OBJECT_PROTOTYPE_KEYS.contains name = false →
      ∃ f, findCarbonData name = LookupOutcome.genuine f) := by
  constructor
  · intro name f h
    unfold findCarbonData at h
    rcases h1 : CARBON_DATA.find? (fun kv => kv.1 == name) with _ | kv
    · simp only [h1] at h
      by_cases hp : OBJECT_PROTOTYPE_KEYS.contains name
      · rw [if_pos hp] at h
        cases h
      · rw [if_neg hp] at h
        rcases h2 : CARBON_DATA.find? (fun kv =>
            containsL name kv.1 || containsL kv.1 name) with _ | kv2
        · simp only [h2] at h
          rcases h3 : inferCategory name with _ | cat
          · simp only [h3] at h
            obtain rfl : (⟨25/10, "unknown".data⟩ : EmissionsFactor) = f :=
              LookupOutcome.genuine.inj h
            exact ⟨by norm_num, by decide⟩
          · simp only [h3] at h
            have hcat : cat ≠ [] := by
              unfold inferCategory at h3
              rcases h5 : categoryKeywords.find? (fun ck =>
                  ck.2.any (fun kw => containsL name kw)) with _ | ck
              · rw [h5] at h3; simp at h3
              · rw [h5] at h3
                have h6 : some ck.1 = some cat := h3
                obtain rfl : ck.1 = cat := by injection h6
                exact categoryKeywordsFacts ck (List.mem_of_find?_eq_some h5)
            rcases h4 : categoryFallbacks.find? (fun p => p.1 == cat) with _ | p
            · simp only [h4] at h
              obtain rfl : (⟨25/10, "unknown".data⟩ : EmissionsFactor) = f :=
                LookupOutcome.genuine.inj h
              exact ⟨by norm_num, by decide⟩
            · simp only [h4] at h
              have hp2 := categoryFallbacksFacts p (List.mem_of_find?_eq_some h4)
              by_cases hz : (p.2 != 0) = true
              · rw [if_pos hz] at h
                obtain rfl : (⟨p.2, cat⟩ : EmissionsFactor) = f :=
                  LookupOutcome.genuine.inj h
                exact ⟨hp2, hcat⟩
              · rw [if_neg hz] at h
                obtain rfl : (⟨25/10, "unknown".data⟩ : EmissionsFactor) = f :=
                  LookupOutcome.genuine.inj h
                exact ⟨by norm_num, by decide⟩
        · simp only [h2] at h
          obtain rfl : kv2.2 = f := LookupOutcome.genuine.inj h
          exact carbonDataFacts kv2 (List.mem_of_find?_eq_some h2)
    · simp only [h1] at h
      obtain rfl : kv.2 = f := LookupOutcome.genuine.inj h
      exact carbonDataFacts kv (List.mem_of_find?_eq_some h1)
  · intro name hp
    unfold findCarbonData
    rcases h1 : CARBON_DATA.find? (fun kv => kv.1 == name) with _ | kv
    · simp only [h1]
      rw [if_neg (by rw [hp]; simp)]
      rcases h2 : CARBON_DATA.find? (fun kv =>
          containsL name kv.1 || containsL kv.1 name) with _ | kv2
      · simp only [h2]
        rcases h3 : inferCategory name with _ | cat
        · simp only [h3]
          exact ⟨_, rfl⟩
        · simp only [h3]
          rcases h4 : categoryFallbacks.find? (fun p => p.1 == cat) with _ | p
          · simp only [h4]
            exact ⟨_, rfl⟩
          · simp only [h4]
            by_cases hz : (p.2 != 0) = true
            · rw [if_pos hz]
              exact ⟨_, rfl⟩
            · rw [if_neg hz]
              exact ⟨_, rfl⟩
      · simp only [h2]
        exact ⟨_, rfl⟩
    · simp only [h1]
      exact ⟨_, rfl⟩

/-- C2 witness: "beef" is not a prototype key; the chain resolves it to the
genuine table factor 60.0 / "meat", which is positive with a non-empty
category. -/
theorem c2_witness :
    (0 < (⟨600/10, "meat".data⟩ : EmissionsFactor).carbon_per_kg ∧
      (⟨600/10, "meat".data⟩ : EmissionsFactor).category ≠ []) ∧
    ∃ f, findCarbonData "beef".data = LookupOutcome.genuine f :=
  ⟨c2_amended.1 "beef".data ⟨600/10, "meat".data⟩ rfl,
   c2_amended.2 "beef".data (by decide)⟩

/-- C3 counterexample: at the claim's own example the program does not
produce the claimed values.  The binary64 product of 6.9 and 0.15, times
100, is 103.49999999999999…, so `Math.round` gives 103: the chicken-150g
ingredient resolves to the double nearest 1.03 — while round2 of the exact
product (what the claim asserts, ≈1.04) is 104/100, which the program value
is not. -/
theorem c3_counterexample :
    (calculateCarbonFootprint [⟨"chicken".data, "150g".data, "meat".data⟩]).map
        (fun i => i.carbon_kg) = [JSNum.num (4638707616191611/2^52)] ∧
    round2 ((69/10 : ℚ) * (15/100)) = 104/100 ∧
    (4638707616191611/2^52 : ℚ) ≠ 104/100 ∧
    |(4638707616191611/2^52 : ℚ) - 103/100| < 1/2^50 := by
  refine ⟨?_, ?_, by norm_num, by rw [abs_lt]; constructor <;> norm_num⟩
  · rw [calcCF_cons_genuine ⟨"chicken".data, "150g".data, "meat".data⟩ []
      ⟨69/10, "meat".data⟩ rfl]
    rw [show (⟨69/10, "meat".data⟩ : EmissionsFactor).carbon_per_kg = 69/10 from rfl]
    rw [parse150g, fl_d69, fl_d015]
    rw [jsMulN_eval _ _ _ fl_p1]
    rw [jsRound2N_eval (4661225614328463/2^52) (7283165022388223/2^46) 103
      (4638707616191611/2^52) 103 fl_q1 floor_q1 (by norm_num) fl_d103]
    rfl
  · rw [round2_eval ((69/10 : ℚ) * (15/100)) 104 (by norm_num) (by norm_num)]
    norm_num

/-- C3 (amended): per ingredient, carbon_kg is the half-up two-decimal
rounding applied in binary64 arithmetic (double multiply, multiply by 100,
exact `Math.round`, double divide by 100) to the product of the stored
factor and the parsed mass; the dish total is the same rounding of the
binary64 sum of the already-rounded values (double rounding).  At the
claimed example — chicken 150g (6.9 × 0.15) and rice 200g (2.7 × 0.2) — the
program yields the doubles nearest 1.03 and 0.54 per ingredient (not 1.04)
and a total nearest 1.57 (not 1.58). -/
theorem c3_amended :
    (∀ (name qty cat : List Char) (f : EmissionsFactor),
      findCarbonData (normalizeIngredientName name) = LookupOutcome.genuine f →
      (calculateCarbonFootprint [⟨name, qty, cat⟩]).map (fun i => i.carbon_kg) =
        [jsRound2N (jsMulN (JSNum.num (fl f.carbon_per_kg))
          (JSNum.num (fl (parseQuantityToKg qty))))]) ∧
    (∀ resolved : List Ingredient,
      getTotalCarbonFootprint resolved =
        jsRound2N (resolved.foldl (fun s i => jsAddN s i.carbon_kg) (JSNum.num 0))) ∧
    (calculateCarbonFootprint [⟨"chicken".data, "150g".data, "meat".data⟩,
        ⟨"rice".data, "200g".data, "grains".data⟩]).map (fun i => i.carbon_kg) =
      [JSNum.num (4638707616191611/2^52), JSNum.num (4863887597560136/2^53)] ∧
    |(4638707616191611/2^52 : ℚ) - 103/100| < 1/2^50 ∧
    |(4863887597560136/2^53 : ℚ) - 54/100| < 1/2^50 ∧
    getTotalCarbonFootprint (calculateCarbonFootprint
        [⟨"chicken".data, "150g".data, "meat".data⟩,
         ⟨"rice".data, "200g".data, "grains".data⟩]) =
      JSNum.num (7070651414971679/2^52) ∧
    |(7070651414971679/2^52 : ℚ) - 157/100| < 1/2^50 := by
  have hchick : calculateCarbonFootprint [⟨"chicken".data, "150g".data, "meat".data⟩,
      ⟨"rice".data, "200g".data, "grains".data⟩] =
      [⟨"chicken".data, JSNum.num (4638707616191611/2^52), "150g".data, some "meat".data⟩,
       ⟨"rice".data, JSNum.num (4863887597560136/2^53), "200g".data, some "grains".data⟩] := by
    rw [calcCF_cons_genuine ⟨"chicken".data, "150g".data, "meat".data⟩ _
      ⟨69/10, "meat".data⟩ rfl]
    rw [calcCF_cons_genuine ⟨"rice".data, "200g".data, "grains".data⟩ []
      ⟨27/10, "grains".data⟩ rfl]
    rw [show (⟨69/10, "meat".data⟩ : EmissionsFactor).carbon_per_kg = 69/10 from rfl,
      show (⟨27/10, "grains".data⟩ : EmissionsFactor).carbon_per_kg = 27/10 from rfl]
    rw [parse150g, parse200g, fl_d69, fl_d015, fl_d27, fl_d02]
    rw [jsMulN_eval _ _ _ fl_p1, jsMulN_eval _ _ _ fl_p2]
    rw [jsRound2N_eval (4661225614328463/2^52) (7283165022388223/2^46) 103
      (4638707616191611/2^52) 103 fl_q1 floor_q1 (by norm_num) fl_d103]
    rw [jsRound2N_eval (4863887597560136/2^53) 54 54
      (4863887597560136/2^53) 54 fl_q2 floor_54 (by norm_num) fl_d054]
    rfl
  refine ⟨?_, ?_, ?_, by rw [abs_lt]; constructor <;> norm_num,
    by rw [abs_lt]; constructor <;> norm_num, ?_,
    by rw [abs_lt]; constructor <;> norm_num⟩
  · intro name qty cat f h
    rw [calcCF_cons_genuine ⟨name, qty, cat⟩ [] f h]
    rfl
  · intro resolved
    rfl
  · rw [hchick]
    rfl
  · rw [hchick]
    unfold getTotalCarbonFootprint
    simp only [List.foldl_cons, List.foldl_nil]
    rw [jsAddN_eval 0 (4638707616191611/2^52) (4638707616191611/2^52)
      (by rw [zero_add]; exact fl_fix103)]
    rw [jsAddN_eval (4638707616191611/2^52) (4863887597560136/2^53)
      (7070651414971679/2^52) fl_sT]
    rw [jsRound2N_eval (7070651414971679/2^52) 157 157
      (7070651414971679/2^52) 157 fl_qT floor_157 (by norm_num) fl_d157]

/-- C3 witness: the chicken-150g ingredient instantiates the per-ingredient
binary64 rounding law with a genuine table factor. -/
theorem c3_witness :
    (calculateCarbonFootprint [⟨"chicken".data, "150g".data, "meat".data⟩]).map
        (fun i => i.carbon_kg) =
      [jsRound2N (jsMulN
        (JSNum.num (fl (⟨69/10, "meat".data⟩ : EmissionsFactor).carbon_per_kg))
        (JSNum.num (fl (parseQuantityToKg "150g".data))))] :=
  c3_amended.1 "chicken".data "150g".data "meat".data ⟨69/10, "meat".data⟩ rfl

/-- C4 counterexample: the quantity parser is not strictly positive on every
input; "0g" parses the number 0, matches the gram branch and returns 0 kg
(and "0 kg" likewise), contradicting the claimed output > 0. -/
theorem c4_counterexample :
    parseQuantityToKg "0g".data = 0 ∧ ¬ (0 < parseQuantityToKg "0g".data) := by
  refine ⟨parse0g, ?_⟩
  rw [parse0g]
  exact lt_irrefl 0

/-- C4 (amended): the quantity parser never fails and always returns a
non-negative mass; it returns 0 exactly on inputs whose extracted number is 0
under a multiplicative unit keyword (e.g. "0g", "0 kg").  When no unit, size
or piece keyword occurs at all, the result is clamped into the default band
[0.05, 0.5] kg (so the empty string yields 0.05). -/
theorem c4_amended :
    (∀ q : List Char, 0 ≤ parseQuantityToKg q) ∧
    (∀ q : List Char, hasAnyKeyword (toLowerStr q) = false →
      5/100 ≤ parseQuantityToKg q ∧ parseQuantityToKg q ≤ 1/2) ∧
    parseQuantityToKg "".data = 5/100 ∧
    parseQuantityToKg "0g".data = 0 ∧
    parseQuantityToKg "0 kg".data = 0 := by
  refine ⟨fun q => parseQuantityAux_nonneg _ _ (baseAmount_nonneg _), ?_,
    parseEmpty, parse0g, parse0kg⟩
  intro q h
  unfold hasAnyKeyword hasEarlyUnit at h
  simp only [Bool.or_eq_false_iff] at h
  obtain ⟨⟨⟨⟨⟨⟨⟨⟨⟨⟨⟨⟨⟨⟨⟨hkg, hg⟩, hlb⟩, hpd⟩, hoz⟩, hoc⟩, hcup⟩, htb⟩, htbl⟩,
    hts⟩, htsp⟩, hsm⟩, hmed⟩, hl⟩, hpc⟩, hit⟩ := h
  unfold parseQuantityToKg parseQuantityAux
  rw [if_neg (by simp [hkg]), if_neg (by simp [hg]), if_neg (by simp [hlb, hpd]),
    if_neg (by simp [hoz, hoc]), if_neg (by simp [hcup]), if_neg (by simp [htb, htbl]),
    if_neg (by simp [hts, htsp]), if_neg (by simp [hsm]), if_neg (by simp [hmed]),
    if_neg (by simp [hl]), if_neg (by simp [hpc, hit])]
  constructor
  · exact le_max_left _ _
  · apply max_le (by norm_num)
    exact le_trans (min_le_right _ _) (by norm_num)

/-- C4 witness: a keyword-free input lands in the default band. -/
theorem c4_witness :
    5/100 ≤ parseQuantityToKg "abc".data ∧ parseQuantityToKg "abc".data ≤ 1/2 :=
  c4_amended.2.1 "abc".data (by decide)

/-- C5 counterexample: an input containing the size word "large" does not
return the fixed 0.2 kg: "large" contains the letter "g", so the parser takes
the gram branch first and returns (default number 0.1)/1000 = 0.0001 kg. -/
theorem c5_counterexample :
    parseQuantityToKg "large".data = 1/10000 ∧ (1/10000 : ℚ) ≠ 2/10 :=
  ⟨parseLarge, by norm_num⟩

/-- C5 (amended): size-word handling is subordinate to the unit scan.  When
no mass/volume unit substring occurs, an input containing "small" yields
0.05 kg, "medium" (without "small") yields 0.1 kg, and "piece"/"item"
(without size words) yield 0.1 kg, the extracted number being ignored; but
any input containing "large" also contains "g", so it is taken by the
kilogram or gram branch (the 0.2 kg large branch is unreachable) and the
extracted number is used.  Quantity Parser("200g") = 0.2 kg,
("1 kg") = 1.0 kg, ("2 lb") = 0.907 kg within 0.001, ("medium") = 0.1 kg,
and ("large") = 0.0001 kg. -/
theorem c5_amended :
    (∀ q : List Char, hasEarlyUnit (toLowerStr q) = false →
      containsL (toLowerStr q) "small".data = true → parseQuantityToKg q = 5/100) ∧
    (∀ q : List Char, hasEarlyUnit (toLowerStr q) = false →
      containsL (toLowerStr q) "small".data = false →
      containsL (toLowerStr q) "medium".data = true → parseQuantityToKg q = 1/10) ∧
    (∀ q : List Char, containsL (toLowerStr q) "large".data = true →
      containsL (toLowerStr q) "g".data = true) ∧
    (∀ q : List Char, containsL (toLowerStr q) "large".data = true →
      containsL (toLowerStr q) "kg".data = false →
      parseQuantityToKg q = (extractNumber (toLowerStr q)).getD (1/10) / 1000) ∧
    (∀ q : List Char, hasEarlyUnit (toLowerStr q) = false →
      containsL (toLowerStr q) "small".data = false →
      containsL (toLowerStr q) "medium".data = false →
      (containsL (toLowerStr q) "piece".data || containsL (toLowerStr q) "item".data) = true →
      parseQuantityToKg q = 1/10) ∧
    parseQuantityToKg "200g".data = 2/10 ∧
    parseQuantityToKg "1 kg".data = 1 ∧
    |parseQuantityToKg "2 lb".data - 907/1000| ≤ (1/1000 : ℚ) ∧
    parseQuantityToKg "medium".data = 1/10 ∧
    parseQuantityToKg "large".data = 1/10000 := by
  refine ⟨?_, ?_, fun q h => large_implies_g _ h, ?_, ?_, parse200g, parse1kg, ?_,
    parseMedium, parseLarge⟩
  · intro q hEU hsm
    unfold hasEarlyUnit at hEU
    simp only [Bool.or_eq_false_iff] at hEU
    obtain ⟨⟨⟨⟨⟨⟨⟨⟨⟨⟨hkg, hg⟩, hlb⟩, hpd⟩, hoz⟩, hoc⟩, hcup⟩, htb⟩, htbl⟩, hts⟩, htsp⟩ := hEU
    unfold parseQuantityToKg parseQuantityAux
    rw [if_neg (by simp [hkg]), if_neg (by simp [hg]), if_neg (by simp [hlb, hpd]),
      if_neg (by simp [hoz, hoc]), if_neg (by simp [hcup]), if_neg (by simp [htb, htbl]),
      if_neg (by simp [hts, htsp]), if_pos hsm]
  · intro q hEU hsm hmed
    unfold hasEarlyUnit at hEU
    simp only [Bool.or_eq_false_iff] at hEU
    obtain ⟨⟨⟨⟨⟨⟨⟨⟨⟨⟨hkg, hg⟩, hlb⟩, hpd⟩, hoz⟩, hoc⟩, hcup⟩, htb⟩, htbl⟩, hts⟩, htsp⟩ := hEU
    unfold parseQuantityToKg parseQuantityAux
    rw [if_neg (by simp [hkg]), if_neg (by simp [hg]), if_neg (by simp [hlb, hpd]),
      if_neg (by simp [hoz, hoc]), if_neg (by simp [hcup]), if_neg (by simp [htb, htbl]),
      if_neg (by simp [hts, htsp]), if_neg (by simp [hsm]), if_pos hmed]
  · intro q hl hkg
    have hg : containsL (toLowerStr q) "g".data = true := large_implies_g _ hl
    unfold parseQuantityToKg parseQuantityAux
    rw [if_neg (by simp [hkg]), if_pos (by simp [hg, hkg])]
  · intro q hEU hsm hmed hpi
    unfold hasEarlyUnit at hEU
    simp only [Bool.or_eq_false_iff] at hEU
    obtain ⟨⟨⟨⟨⟨⟨⟨⟨⟨⟨hkg, hg⟩, hlb⟩, hpd⟩, hoz⟩, hoc⟩, hcup⟩, htb⟩, htbl⟩, hts⟩, htsp⟩ := hEU
    have hl : containsL (toLowerStr q) "large".data = false := by
      by_contra hc
      rw [Bool.not_eq_false] at hc
      have hg2 := large_implies_g _ hc
      rw [hg] at hg2
      cases hg2
    unfold parseQuantityToKg parseQuantityAux
    rw [if_neg (by simp [hkg]), if_neg (by simp [hg]), if_neg (by simp [hlb, hpd]),
      if_neg (by simp [hoz, hoc]), if_neg (by simp [hcup]), if_neg (by simp [htb, htbl]),
      if_neg (by simp [hts, htsp]), if_neg (by simp [hsm]), if_neg (by simp [hmed]),
      if_neg (by simp [hl]), if_pos hpi]
  · rw [parse2lb, abs_le]
    constructor <;> norm_num

/-- C5 witness: "small tomato" has no unit substring, contains "small", and
parses to the fixed 0.05 kg. -/
theorem c5_witness : parseQuantityToKg "small tomato".data = 5/100 :=
  c5_amended.1 "small tomato".data (by decide) (by decide)

/-- C6 counterexample: the text validator accepts a payload whose first
ingredient element has the number 5 (truthy, but not a string) in its `name`
field, refuting "accepts only when every element field is a non-empty
string". -/
theorem c6_counterexample :
    validateLLMResponse c6Payload = true ∧
    getField c6Elem "name".data = some (JValue.jnum 5) ∧
    ¬ isNonEmptyStringProp (getField c6Elem "name".data) := by
  refine ⟨by decide, rfl, ?_⟩
  rintro ⟨s, hs, _⟩
  rw [show getField c6Elem "name".data = some (JValue.jnum 5) from rfl] at hs
  simp at hs

/-- C6 (amended): the validators check truthiness, not string-ness, of the
three element fields: acceptance holds iff the payload is a truthy
object-typed value, `ingredients` is an array, `confidence` is a number in
[0,1], and each element has truthy `name`, `estimated_quantity` and
`category` (non-empty strings qualify, but so do nonzero numbers, `true`,
arrays and objects); only the vision variant's `dish_name` really must be a
non-empty string. -/
theorem c6_amended (r : JValue) :
    (validateLLMResponse r = true ↔ llmAccepts r) ∧
    (validateVisionResponse r = true ↔ visionAccepts r) := by
  constructor
  · unfold validateLLMResponse llmAccepts
    by_cases h0 : (truthy r && isObjectType r) = true
    · rw [if_neg (by simp [h0])]
      rw [Bool.and_eq_true] at h0
      simp only [h0.1, h0.2, true_and]
      exact validateTail_iff r
    · rw [Bool.not_eq_true] at h0
      rw [if_pos (by simp [h0])]
      constructor
      · intro h; cases h
      · rintro ⟨h1, h2, _⟩
        rw [h1, h2] at h0
        cases h0
  · unfold validateVisionResponse visionAccepts
    by_cases h0 : (truthy r && isObjectType r) = true
    · rw [if_neg (by simp [h0])]
      rw [Bool.and_eq_true] at h0
      simp only [h0.1, h0.2, true_and]
      rcases hd : getField r "dish_name".data with _ | v
      · constructor
        · intro h; cases h
        · rintro ⟨⟨s, hs, _⟩, _⟩; simp at hs
      · cases v with
        | jstr s =>
          show (if s.isEmpty = true then false else validateTail r) = true ↔
            (∃ s2, some (JValue.jstr s) = some (JValue.jstr s2) ∧ s2 ≠ []) ∧ tailAccepts r
          by_cases hse : s.isEmpty = true
          · rw [if_pos hse]
            constructor
            · intro h; cases h
            · rintro ⟨⟨s2, hs2, hne⟩, _⟩
              obtain rfl : s = s2 := by simpa using hs2
              exact absurd (List.isEmpty_iff.mp hse) hne
          · rw [if_neg hse]
            rw [validateTail_iff]
            constructor
            · intro h
              refine ⟨⟨s, rfl, ?_⟩, h⟩
              intro hnil
              exact hse (by simp [hnil])
            · rintro ⟨_, h⟩; exact h
        | jnull =>
          constructor
          · intro h; cases h
          · rintro ⟨⟨s2, hs2, _⟩, _⟩; simp at hs2
        | jbool b =>
          constructor
          · intro h; cases h
          · rintro ⟨⟨s2, hs2, _⟩, _⟩; simp at hs2
        | jnum q =>
          constructor
          · intro h; cases h
          · rintro ⟨⟨s2, hs2, _⟩, _⟩; simp at hs2
        | jarr xs =>
          constructor
          · intro h; cases h
          · rintro ⟨⟨s2, hs2, _⟩, _⟩; simp at hs2
        | jobj fs =>
          constructor
          · intro h; cases h
          · rintro ⟨⟨s2, hs2, _⟩, _⟩; simp at hs2
    · rw [Bool.not_eq_true] at h0
      rw [if_pos (by simp [h0])]
      constructor
      · intro h; cases h
      · rintro ⟨h1, h2, _⟩
        rw [h1, h2] at h0
        cases h0

/-- C7: on inference failure the fallback selector scans the lower-cased dish
name against the patterns in the fixed order pizza, burger, pasta and returns
the first match; "Pizza Margherita" gets the pizza canned response with
confidence 0.75, and "Unicorn tears with dragon scales" matches no pattern
and gets the generic three-ingredient canned response with confidence 0.5. -/
theorem c7_fallback_selector :
    getFallbackResponse "Pizza Margherita".data = pizzaFallback ∧
    pizzaFallback.confidence = 75/100 ∧
    getFallbackResponse "Unicorn tears with dragon scales".data = genericFallback ∧
    genericFallback.confidence = 50/100 ∧
    genericFallback.ingredients.length = 3 ∧
    fallbackResponses.map Prod.fst = ["pizza".data, "burger".data, "pasta".data] :=
  ⟨rfl, rfl, rfl, rfl, rfl, by decide⟩

/-- C8 counterexample: the name normalizer is not idempotent: "beans."
normalizes to "beans" (the dot shields the final "s" from the plural strip,
then is removed), and normalizing again gives "bean". -/
theorem c8_counterexample :
    normalizeIngredientName (normalizeIngredientName "beans.".data) ≠
      normalizeIngredientName "beans.".data := by decide

/-- C8 (amended): the normalizer is idempotent on exactly those inputs whose
normalized form does not end in "s"; a second application can only strip one
more trailing "s" (possible when a stripped non-letter character shielded the
final "s" on the first pass). -/
theorem c8_amended (s : List Char)
    (h : (normalizeIngredientName s).getLast? ≠ some 's') :
    normalizeIngredientName (normalizeIngredientName s) = normalizeIngredientName s := by
  set y := normalizeIngredientName s with hy
  have hall : ∀ c ∈ y, isAllowed c = true := by
    intro c hc
    rw [hy] at hc
    unfold normalizeIngredientName at hc
    have hmem := mem_trimStr _ _ hc
    exact (List.mem_filter.mp hmem).2
  have hlower : toLowerStr y = y := by
    unfold toLowerStr
    rw [List.map_congr_left (fun c hc => toLowerChar_of_allowed c (hall c hc))]
    exact List.map_id y
  have hstrip : stripTrailingS y = y := by
    unfold stripTrailingS
    rw [if_neg h]
  have hfilter : List.filter isAllowed y = y := List.filter_eq_self.mpr hall
  have htrim : trimStr y = y := by
    rw [hy]
    unfold normalizeIngredientName
    exact trimStr_idem _
  unfold normalizeIngredientName
  rw [hlower, hstrip, hfilter, htrim]

/-- C8 witness: "beef" normalizes to "beef", which does not end in "s", and
normalizing twice is the same as normalizing once. -/
theorem c8_witness :
    (normalizeIngredientName "beef".data).getLast? ≠ some 's' ∧
    normalizeIngredientName (normalizeIngredientName "beef".data) =
      normalizeIngredientName "beef".data :=
  ⟨by decide, c8_amended "beef".data (by decide)⟩

/-- C9: for a batch of N dishes in which the k-th inference call fails (and
the other calls behave as in a failure-free run), the formatted result list
has length N and preserves order; item k is the error item {original dish,
error marker, zero carbon, empty ingredients, zero confidence}, and every
other item is exactly what it would be in the batch without the failure. -/
theorem c9_batch (dishes : List (List Char)) (f g : Nat → Except Unit LLMResp)
    (k : Nat) (hagree : ∀ i, i ≠ k → f i = g i) (hfail : f k = Except.error ()) :
    (runBatch f dishes).length = dishes.length ∧
    (runBatch f dishes)[k]? = (dishes[k]?).map failedItem ∧
    ∀ i, i ≠ k → (runBatch f dishes)[i]? = (runBatch g dishes)[i]? := by
  refine ⟨runBatchAux_length f dishes 0, ?_, ?_⟩
  · simp only [runBatch, runBatchAux_getElem?, Nat.zero_add, hfail]
    rcases hdk : dishes[k]? with _ | d
    · rfl
    · rfl
  · intro i hik
    simp only [runBatch, runBatchAux_getElem?, Nat.zero_add, hagree i hik]

/-- C9 witness: a one-dish batch whose only inference call fails formats to a
single error item, and positions other than the failing one agree with the
failure-free outcome function. -/
theorem c9_witness :
    (runBatch outcomeFailAll ["pizza".data]).length = 1 ∧
    (runBatch outcomeFailAll ["pizza".data])[0]? =
      ((["pizza".data] : List (List Char))[0]?).map failedItem ∧
    (runBatch outcomeFailAll ["pizza".data])[1]? =
      (runBatch outcomeOkZero ["pizza".data])[1]? := by
  have hagree : ∀ i, i ≠ 0 → outcomeFailAll i = outcomeOkZero i := by
    intro i hi
    simp [outcomeFailAll, outcomeOkZero, hi]
  have h := c9_batch ["pizza".data] outcomeFailAll outcomeOkZero 0 hagree rfl
  exact ⟨h.1, h.2.1, h.2.2 1 (by decide)⟩

/-- C10: resolution consults only the ingredient name and the quantity
string, never the supplied category hint: two raw ingredient lists equal
except in their category fields produce identical outputs. -/
theorem c10_hint_independent (xs ys : List RawIngredient)
    (h : xs.map (fun i => (i.name, i.estimated_quantity)) =
      ys.map (fun i => (i.name, i.estimated_quantity))) :
    calculateCarbonFootprint xs = calculateCarbonFootprint ys := by
  induction xs generalizing ys with
  | nil =>
    cases ys with
    | nil => rfl
    | cons y ys => simp at h
  | cons x xs ih =>
    cases ys with
    | nil => simp at h
    | cons y ys =>
      simp only [List.map_cons, List.cons.injEq, Prod.mk.injEq] at h
      obtain ⟨⟨hn, hq⟩, ht⟩ := h
      have htail := ih ys ht
      unfold calculateCarbonFootprint at htail ⊢
      simp only [List.map_cons]
      rw [hn, hq, htail]

/-- C10 witness: the same name and quantity with different category hints
("meat" vs "dairy") give identical resolved outputs. -/
theorem c10_witness :
    calculateCarbonFootprint [⟨"beef".data, "100g".data, "meat".data⟩] =
      calculateCarbonFootprint [⟨"beef".data, "100g".data, "dairy".data⟩] :=
  c10_hint_independent _ _ (by decide)
